import Mathlib

/-!
Shallow embedding of the Gatekeeper data plane (GK per-flow decision engine
and LLS resolver front-end) from src/gk/main.c and src/lls/main.c.

Machine integers are modelled as `Nat` with explicit `% 2 ^ 64` where a
64-bit store can wrap (`uint64_t` fields and expressions) and `% 256` for
`uint8_t` arithmetic; C `int` fields are modelled as `Int`.  The clock
(`rte_rdtsc`) and the globals `picosec_per_cycle`, `cycles_per_sec`,
`cycles_per_ms` are passed as parameters.  `encapsulate` is an external
collaborator: the embedding exposes the DSCP value handed to it.
-/

/-- Wrap-around modulus of a `uint64_t` store. -/
def U64_MOD : Nat := 2 ^ 64

/-- `#define START_PRIORITY (38)` in src/gk/main.c. -/
def START_PRIORITY : Nat := 38

/-- `#define START_ALLOWANCE (8)` in src/gk/main.c. -/
def START_ALLOWANCE : Nat := 8

/-- `#define PRIORITY_GRANTED (1)` in src/gk/main.c. -/
def PRIORITY_GRANTED : Nat := 1

/-- `#define PRIORITY_RENEW_CAP (2)` in src/gk/main.c. -/
def PRIORITY_RENEW_CAP : Nat := 2

/-- `#define PRIORITY_MAX (63)` in src/gk/main.c. -/
def PRIORITY_MAX : Nat := 63

/-- `#define GK_CMD_BURST_SIZE (32)` in src/gk/main.c. -/
def GK_CMD_BURST_SIZE : Nat := 32

/-- Count of leading zeros of a nonzero 64-bit value, as computed by the
`__builtin_clzl` / `__builtin_clzll` primitives on a `uint64_t` argument. -/
def clzl (n : Nat) : Nat := 64 - Nat.size n

/-- `integer_log_base_2` from src/gk/main.c:
`(8 * sizeof(uint64_t) - 1) - __builtin_clzl(delta_time)`.
The source comments that it must not be called with zero. -/
def integer_log_base_2 (delta_time : Nat) : Nat :=
  (8 * 8 - 1) - clzl delta_time

/-- `Nat.size` is one more than `Nat.log2` on positive numbers. -/
theorem size_eq_log2_succ {n : Nat} (h : n ≠ 0) :
    Nat.size n = Nat.log2 n + 1 := by
  refine Nat.le_antisymm (Nat.size_le.mpr Nat.lt_log2_self) ?_
  have h2 : 2 ^ Nat.log2 n ≤ n := Nat.log2_self_le h
  have : ¬ Nat.size n ≤ Nat.log2 n := by
    intro hle
    exact absurd (Nat.size_le.mp hle) (Nat.not_lt.mpr h2)
  omega

/-- On nonzero 64-bit values, `integer_log_base_2` is the integer base-2
logarithm. -/
theorem integer_log_base_2_eq_log2 {n : Nat} (h1 : 1 ≤ n) (h2 : n < U64_MOD) :
    integer_log_base_2 n = Nat.log2 n := by
  have hn : n ≠ 0 := by omega
  have hsize : Nat.size n = Nat.log2 n + 1 := size_eq_log2_succ hn
  have hlog : Nat.log2 n < 64 := (Nat.log2_lt hn).mpr h2
  unfold integer_log_base_2 clzl
  omega

/-- `priority_from_delta_time` from src/gk/main.c.  `delta_time` is a
`uint64_t`, so the product wraps at `2 ^ 64`. -/
def priority_from_delta_time (present past picosec_per_cycle : Nat) : Nat :=
  if present < past then
    0
  else
    let delta_time := ((present - past) * picosec_per_cycle) % U64_MOD
    if delta_time < 1 then 0
    else integer_log_base_2 delta_time

/-- The `request` member of the per-state union in `struct flow_entry`.
The `grantor_id` field is kept because `initialize_flow_entry` writes it. -/
structure RequestState where
  last_packet_seen_at : Nat
  last_priority : Nat
  allowance : Nat
  grantor_id : Int
  deriving Repr, DecidableEq

/-- The `granted` member of the per-state union in `struct flow_entry`.
The union's `grantor_id` field is omitted: no code modelled here writes it
(its fill is a TODO in the source). -/
structure GrantedState where
  cap_expire_at : Nat
  budget_renew_at : Nat
  tx_rate_kb_cycle : Int
  budget_byte : Int
  send_next_renewal_at : Nat
  renewal_step_cycle : Nat
  deriving Repr, DecidableEq

/-- The `declined` member of the per-state union in `struct flow_entry`. -/
structure DeclinedState where
  expire_at : Nat
  deriving Repr, DecidableEq

/-- The state tag together with the live union member of `struct flow_entry`
(the union is discriminated by `state`). -/
inductive FlowState where
  | request : RequestState → FlowState
  | granted : GrantedState → FlowState
  | declined : DeclinedState → FlowState
  deriving Repr, DecidableEq

/-- `struct flow_entry`: the flow key (modelled opaquely as a `Nat`) and the
state tag with its live union member. -/
structure FlowEntry where
  flow : Nat
  state : FlowState
  deriving Repr, DecidableEq

/-- `initialize_flow_entry` from src/gk/main.c; `now` stands for the
`rte_rdtsc()` read it performs. -/
def initialize_flow_entry (flow : Nat) (now : Nat) : FlowEntry :=
  { flow := flow
    state := FlowState.request
      { last_packet_seen_at := now
        last_priority := START_PRIORITY
        allowance := START_ALLOWANCE - 1
        grantor_id := 0 } }

/-- `reinitialize_flow_entry` from src/gk/main.c: same resets as
`initialize_flow_entry` but keeps the flow key and takes `now` from the
caller. -/
def reinitialize_flow_entry (fe : FlowEntry) (now : Nat) : FlowEntry :=
  { fe with
    state := FlowState.request
      { last_packet_seen_at := now
        last_priority := START_PRIORITY
        allowance := START_ALLOWANCE - 1
        grantor_id := 0 } }

/-- Result of the REQUEST path: the updated `request` union member and the
DSCP value handed to `encapsulate`. -/
structure RequestResult where
  entry : RequestState
  dscp : Nat
  deriving Repr, DecidableEq

/-- The DSCP remap at the tail of `gk_process_request`: `priority += 3`
in `uint8_t` arithmetic, then clamp at `PRIORITY_MAX`. -/
def dscp_remap (priority : Nat) : Nat :=
  if PRIORITY_MAX < (priority + 3) % 256 then PRIORITY_MAX
  else (priority + 3) % 256

/-- `gk_process_request` from src/gk/main.c, on the `request` union member.
`now` stands for the `rte_rdtsc()` read at its top; `pp` is the global
`picosec_per_cycle`.  The source updates `last_packet_seen_at` to `now`
before the allowance branch; here the two branch outcomes are written as
whole records. -/
def gk_process_request (r : RequestState) (now pp : Nat) : RequestResult :=
  let priority := priority_from_delta_time now r.last_packet_seen_at pp
  if priority < r.last_priority ∧ 0 < r.allowance then
    { entry := { r with last_packet_seen_at := now,
                        allowance := r.allowance - 1 }
      dscp := dscp_remap r.last_priority }
  else
    { entry := { r with last_packet_seen_at := now,
                        last_priority := priority,
                        allowance := START_ALLOWANCE - 1 }
      dscp := dscp_remap priority }

/-- Outcome of processing one packet: handed to `encapsulate` with the
given DSCP value, or freed by `drop_packet`. -/
inductive GkOutcome where
  | sent : Nat → GkOutcome
  | dropped : GkOutcome
  deriving Repr, DecidableEq

/-- `gk_process_request` lifted to a whole `struct flow_entry`, as invoked
from the `GK_REQUEST` arm of the classification switch in `gk_proc` (the
entry is in REQUEST state on every call site in the source; other tags are
unreachable there and are mapped to a drop). -/
def gk_process_request_fe (fe : FlowEntry) (now pp : Nat) :
    FlowEntry × GkOutcome :=
  match fe.state with
  | FlowState.request r =>
      let res := gk_process_request r now pp
      ({ fe with state := FlowState.request res.entry }, GkOutcome.sent res.dscp)
  | s => ({ fe with state := s }, GkOutcome.dropped)

/-- `cycle_from_second` from src/gk/main.c; `cps` is the global
`cycles_per_sec`. -/
def cycle_from_second (cps time : Nat) : Nat := cps * time

/-- The budget-renewal step at the top of `gk_process_granted`: when
`now >= budget_renew_at`, push `budget_renew_at` one second ahead and reset
`budget_byte` to `tx_rate_kb_cycle * 1024`. -/
def granted_budget_renew (g : GrantedState) (now cps : Nat) : GrantedState :=
  if now ≥ g.budget_renew_at then
    { g with
      budget_renew_at := (now + cycle_from_second cps 1) % U64_MOD,
      budget_byte := g.tx_rate_kb_cycle * 1024 }
  else g

/-- The tail of `gk_process_granted` after budget renewal: drop when the
packet exceeds the byte budget, otherwise charge the budget and send with
`PRIORITY_RENEW_CAP` when a renewal is due (pushing the renewal deadline by
`renewal_step_cycle`) or `PRIORITY_GRANTED` otherwise. -/
def granted_send (flow : Nat) (g : GrantedState) (now len : Nat) :
    FlowEntry × GkOutcome :=
  if (len : Int) > g.budget_byte then
    ({ flow := flow, state := FlowState.granted g }, GkOutcome.dropped)
  else if now ≥ g.send_next_renewal_at then
    ({ flow := flow, state := FlowState.granted
        { g with budget_byte := g.budget_byte - (len : Int),
                 send_next_renewal_at :=
                   (now + g.renewal_step_cycle) % U64_MOD } },
      GkOutcome.sent PRIORITY_RENEW_CAP)
  else
    ({ flow := flow, state := FlowState.granted
        { g with budget_byte := g.budget_byte - (len : Int) } },
      GkOutcome.sent PRIORITY_GRANTED)

/-- `gk_process_granted` from src/gk/main.c, on an entry whose live union
member is `g`.  `now` is the `rte_rdtsc()` read at its top and `now_req`
the fresh `rte_rdtsc()` read performed inside `gk_process_request` when the
capability has expired; `len` is `pkt->data_len`. -/
def gk_process_granted (flow : Nat) (g : GrantedState)
    (now now_req len pp cps : Nat) : FlowEntry × GkOutcome :=
  if now ≥ g.cap_expire_at then
    gk_process_request_fe
      (reinitialize_flow_entry { flow := flow, state := FlowState.granted g } now)
      now_req pp
  else
    granted_send flow (granted_budget_renew g now cps) now len

/-- `gk_process_declined` from src/gk/main.c, on an entry whose live union
member is `d`.  `now` is the `rte_rdtsc()` read at its top and `now_req`
the fresh read inside `gk_process_request` after reinitialization. -/
def gk_process_declined (flow : Nat) (d : DeclinedState)
    (now now_req pp : Nat) : FlowEntry × GkOutcome :=
  if now ≥ d.expire_at then
    gk_process_request_fe
      (reinitialize_flow_entry { flow := flow, state := FlowState.declined d } now)
      now_req pp
  else
    ({ flow := flow, state := FlowState.declined d }, GkOutcome.dropped)

/-- The `granted` member of the `params` union of `struct ggu_policy`. -/
structure GguGrantedParams where
  cap_expire_sec : Nat
  tx_rate_kb_sec : Int
  next_renewal_ms : Nat
  renewal_step_ms : Nat
  deriving Repr, DecidableEq

/-- The `state` discriminator of `struct ggu_policy` with the live member
of its `params` union; states other than granted/declined fall into the
logged-and-ignored default arm. -/
inductive GguPolicyState where
  | grantedPolicy : GguGrantedParams → GguPolicyState
  | declinedPolicy : (expire_sec : Nat) → GguPolicyState
  | unknownPolicy : Nat → GguPolicyState
  deriving Repr, DecidableEq

/-- The `switch (policy->state)` body of `add_ggu_policy` from
src/gk/main.c, applied to the resolved flow entry.  `cps` and `cpms` are
the globals `cycles_per_sec` and `cycles_per_ms`. -/
def add_ggu_policy_update (ps : GguPolicyState) (now cps cpms : Nat)
    (fe : FlowEntry) : FlowEntry :=
  match ps with
  | GguPolicyState.grantedPolicy p =>
      { fe with state := FlowState.granted {
            cap_expire_at := (now + p.cap_expire_sec * cps) % U64_MOD
            tx_rate_kb_cycle := p.tx_rate_kb_sec
            send_next_renewal_at := (now + p.next_renewal_ms * cpms) % U64_MOD
            renewal_step_cycle := (p.renewal_step_ms * cpms) % U64_MOD
            budget_renew_at := (now + cycle_from_second cps 1) % U64_MOD
            budget_byte := p.tx_rate_kb_sec * 1024 } }
  | GguPolicyState.declinedPolicy expire_sec =>
      { fe with state := FlowState.declined {
            expire_at := (now + expire_sec * cps) % U64_MOD } }
  | GguPolicyState.unknownPolicy _ => fe

/-- `add_ggu_policy` from src/gk/main.c: resolve the flow entry (reuse the
hash-table hit, or create and initialize a fresh entry on a miss) and apply
the policy switch.  `found` is the result of the hash lookup. -/
def add_ggu_policy (ps : GguPolicyState) (now cps cpms : Nat) (flow : Nat)
    (found : Option FlowEntry) : FlowEntry :=
  match found with
  | none => add_ggu_policy_update ps now cps cpms (initialize_flow_entry flow now)
  | some fe => add_ggu_policy_update ps now cps cpms fe

/-- The `expire_at` field of an entry in DECLINED state. -/
def entry_expire_at (fe : FlowEntry) : Option Nat :=
  match fe.state with
  | FlowState.declined d => some d.expire_at
  | _ => none

/-- The `budget_byte` field of an entry in GRANTED state. -/
def entry_budget_byte (fe : FlowEntry) : Option Int :=
  match fe.state with
  | FlowState.granted g => some g.budget_byte
  | _ => none

/-- One iteration of the `while (!exiting)` loop of `gk_proc` from
src/gk/main.c, restricted to its mailbox-observation behaviour: commands
are identified by `Nat` ids held in FIFO order.  When the RX burst is empty
the iteration executes `continue` and never reaches the mailbox drain;
otherwise `mb_dequeue_burst` takes at most `GK_CMD_BURST_SIZE` commands and
`process_gk_cmd` is applied to each.  The result is the remaining mailbox
content and the commands observed in this iteration. -/
def gk_proc_iteration (num_rx : Nat) (mailbox : List Nat) :
    List Nat × List Nat :=
  if num_rx = 0 then (mailbox, [])
  else (mailbox.drop GK_CMD_BURST_SIZE, mailbox.take GK_CMD_BURST_SIZE)

/-- The per-interface enablement bits consulted by the `iface_enabled`
function pointers of the two caches in src/lls/main.c. -/
structure LlsNet where
  front_arp : Bool
  back_arp : Bool
  front_nd : Bool
  back_nd : Bool
  deriving Repr, DecidableEq

/-- `arp_enabled` from src/lls/main.c: ARP enabled on the front or the back
interface. -/
def arp_enabled (n : LlsNet) : Bool := n.front_arp || n.back_arp

/-- `nd_enabled` from src/lls/main.c: ND enabled on the front or the back
interface. -/
def nd_enabled (n : LlsNet) : Bool := n.front_nd || n.back_nd

/-- `hold_arp` from src/lls/main.c.  The first component is the returned
status (`lls_req` is an external collaborator whose return is the
parameter `req_ret`); the second records whether a mailbox request was
made (`lls_req` invoked). -/
def hold_arp (n : LlsNet) (req_ret : Int) : Int × Bool :=
  if arp_enabled n then (req_ret, true) else (-1, false)

/-- `put_arp` from src/lls/main.c, same reading as `hold_arp`. -/
def put_arp (n : LlsNet) (req_ret : Int) : Int × Bool :=
  if arp_enabled n then (req_ret, true) else (-1, false)

/-- `hold_nd` from src/lls/main.c, same reading as `hold_arp`. -/
def hold_nd (n : LlsNet) (req_ret : Int) : Int × Bool :=
  if nd_enabled n then (req_ret, true) else (-1, false)

/-- `put_nd` from src/lls/main.c, same reading as `hold_arp`. -/
def put_nd (n : LlsNet) (req_ret : Int) : Int × Bool :=
  if nd_enabled n then (req_ret, true) else (-1, false)

/-- `submit_nd` from src/lls/main.c, same reading as `hold_arp`. -/
def submit_nd (n : LlsNet) (req_ret : Int) : Int × Bool :=
  if nd_enabled n then (req_ret, true) else (-1, false)

/-- The search loop of `get_responsible_gk_mailbox` from src/gk/main.c:
`block_idx` starts at `-1` and is set to the first instance index whose
`rx_queue_front` equals `queue_id`. -/
def gk_block_search (queues : List Nat) (queue_id : Nat) (i : Nat) : Int :=
  match queues with
  | [] => -1
  | q :: rest =>
      if q = queue_id then (i : Int)
      else gk_block_search rest queue_id (i + 1)

/-- The fields of `struct gk_config` read by `get_responsible_gk_mailbox`:
the per-instance `rx_queue_front` values (indexed as `instances[i]`) and
the RSS redirection table `rss_conf.reta_conf[idx].reta[shift]`. -/
structure GkConfModel where
  rx_queue_front : List Nat
  reta_conf : Nat → Nat → Nat

/-- `get_responsible_gk_mailbox` from src/gk/main.c, reduced to the
`block_idx` it computes: the function unconditionally returns
`&gk_conf->instances[block_idx].mb`, so the returned value here is the
index used for that access.  `rss_hash_val` is the RSS hash of the flow;
`RTE_RETA_GROUP_SIZE` is 64. -/
def get_responsible_gk_mailbox (conf : GkConfModel) (rss_hash_val : Nat) :
    Int :=
  let val := rss_hash_val % 128
  let idx := val / 64
  let shift := val % 64
  let queue_id := conf.reta_conf idx shift
  gk_block_search conf.rx_queue_front queue_id 0

/-- Branch equation for `gk_process_request`: the allowance-override case. -/
theorem gk_process_request_eq_pos (r : RequestState) (now pp : Nat)
    (hc : priority_from_delta_time now r.last_packet_seen_at pp <
        r.last_priority ∧ 0 < r.allowance) :
    gk_process_request r now pp =
      { entry := { r with last_packet_seen_at := now,
                          allowance := r.allowance - 1 }
        dscp := dscp_remap r.last_priority } := by
  simp only [gk_process_request]
  rw [if_pos hc]

/-- Branch equation for `gk_process_request`: the reset case. -/
theorem gk_process_request_eq_neg (r : RequestState) (now pp : Nat)
    (hc : ¬ (priority_from_delta_time now r.last_packet_seen_at pp <
        r.last_priority ∧ 0 < r.allowance)) :
    gk_process_request r now pp =
      { entry := { r with last_packet_seen_at := now,
                          last_priority :=
                            priority_from_delta_time now
                              r.last_packet_seen_at pp,
                          allowance := START_ALLOWANCE - 1 }
        dscp := dscp_remap (priority_from_delta_time now
          r.last_packet_seen_at pp) } := by
  simp only [gk_process_request]
  rw [if_neg hc]

/-- On priorities that fit the source invariant (at most 252, so the
`uint8_t` increment cannot wrap), the DSCP remap is `min (p + 3) 63`. -/
theorem dscp_remap_eq_min {p : Nat} (hp : p ≤ 252) :
    dscp_remap p = min (p + 3) 63 := by
  unfold dscp_remap PRIORITY_MAX
  rw [Nat.mod_eq_of_lt (by omega)]
  split <;> omega

/-- The priority derived from a delta time is at most 63. -/
theorem priority_from_delta_time_le (present past pp : Nat) :
    priority_from_delta_time present past pp ≤ 63 := by
  by_cases h1 : present < past
  · simp [priority_from_delta_time, h1]
  · by_cases h2 : ((present - past) * pp) % U64_MOD < 1
    · simp [priority_from_delta_time, h1, h2]
    · have hlt : ((present - past) * pp) % U64_MOD < U64_MOD :=
        Nat.mod_lt _ (by norm_num [U64_MOD])
      have hne : ((present - past) * pp) % U64_MOD ≠ 0 := by omega
      have hlog := (Nat.log2_lt hne).mpr hlt
      simp only [priority_from_delta_time, if_neg h1, if_neg h2,
        integer_log_base_2_eq_log2 (by omega : 1 ≤ _) hlt]
      omega

/-- Claim C1: on the REQUEST path the computed priority is 0 when the clock
reads earlier than `last_packet_seen_at`, 0 when the (64-bit) product
`delta = (now - last_packet_seen_at) * picosec_per_cycle` is below 1, and
the integer base-2 logarithm of `delta` otherwise; afterwards
`last_packet_seen_at` is set to `now`. -/
theorem request_priority_computation (r : RequestState) (now pp : Nat) :
    (now < r.last_packet_seen_at →
      priority_from_delta_time now r.last_packet_seen_at pp = 0) ∧
    (r.last_packet_seen_at ≤ now →
      ((now - r.last_packet_seen_at) * pp) % U64_MOD < 1 →
      priority_from_delta_time now r.last_packet_seen_at pp = 0) ∧
    (r.last_packet_seen_at ≤ now →
      1 ≤ ((now - r.last_packet_seen_at) * pp) % U64_MOD →
      priority_from_delta_time now r.last_packet_seen_at pp =
        Nat.log2 (((now - r.last_packet_seen_at) * pp) % U64_MOD)) ∧
    (gk_process_request r now pp).entry.last_packet_seen_at = now := by
  refine ⟨?_, ?_, ?_, ?_⟩
  · intro h
    simp [priority_from_delta_time, h]
  · intro h1 h2
    simp [priority_from_delta_time, Nat.not_lt.mpr h1, h2]
  · intro h1 h2
    have hlt : ((now - r.last_packet_seen_at) * pp) % U64_MOD < U64_MOD :=
      Nat.mod_lt _ (by norm_num [U64_MOD])
    have hne : ¬ now < r.last_packet_seen_at := Nat.not_lt.mpr h1
    have h2x : ¬ ((now - r.last_packet_seen_at) * pp) % U64_MOD < 1 := by
      omega
    simp only [priority_from_delta_time, if_neg hne, if_neg h2x]
    exact integer_log_base_2_eq_log2 h2 hlt
  · by_cases hc : priority_from_delta_time now r.last_packet_seen_at pp <
        r.last_priority ∧ 0 < r.allowance
    · simp [gk_process_request, hc]
    · simp [gk_process_request, hc]

/-- Witness for claim C1 at a concrete input: with `last_packet_seen_at = 5`,
`now = 9`, `picosec_per_cycle = 3` the delta is 12 and the priority is its
base-2 logarithm; the timestamp is updated to 9. -/
theorem request_priority_computation_witness :
    priority_from_delta_time 9 5 3 = Nat.log2 (((9 - 5) * 3) % U64_MOD) ∧
    (gk_process_request ⟨5, 38, 7, 0⟩ 9 3).entry.last_packet_seen_at = 9 := by
  have h := request_priority_computation ⟨5, 38, 7, 0⟩ 9 3
  exact ⟨h.2.2.1 (by decide) (by decide), h.2.2.2⟩

/-- Claim C2: on the REQUEST path, when the computed priority is strictly
below `last_priority` and `allowance` is positive, `allowance` drops by one
and the packet is sent with `last_priority` (which is unchanged); in every
other case, including equality, `last_priority` becomes the computed
priority and `allowance` resets to 7.  The hypothesis `last_priority ≤ 63`
is the source invariant (it is written only as 38 or as a computed
priority, which is at most 63). -/
theorem request_allowance_rule (r : RequestState) (now pp : Nat)
    (hlp : r.last_priority ≤ 63) :
    (priority_from_delta_time now r.last_packet_seen_at pp < r.last_priority ∧
        0 < r.allowance →
      (gk_process_request r now pp).entry.allowance = r.allowance - 1 ∧
      (gk_process_request r now pp).entry.last_priority = r.last_priority ∧
      (gk_process_request r now pp).dscp = min (r.last_priority + 3) 63) ∧
    (¬ (priority_from_delta_time now r.last_packet_seen_at pp <
          r.last_priority ∧ 0 < r.allowance) →
      (gk_process_request r now pp).entry.last_priority =
        priority_from_delta_time now r.last_packet_seen_at pp ∧
      (gk_process_request r now pp).entry.allowance = 7) := by
  constructor
  · intro hc
    refine ⟨?_, ?_, ?_⟩ <;>
      simp [gk_process_request, hc, dscp_remap_eq_min (by omega : r.last_priority ≤ 252)]
  · intro hc
    constructor <;> simp [gk_process_request, hc, START_ALLOWANCE]

/-- Witness for claim C2 at a concrete input: a same-instant packet on a
fresh-style entry (`last_priority = 38`, `allowance = 7`) consumes one
allowance unit and is sent with priority 38; an entry with exhausted
allowance instead takes the reset branch. -/
theorem request_allowance_rule_witness :
    ((gk_process_request ⟨5, 38, 7, 0⟩ 5 1).entry.allowance = 6 ∧
      (gk_process_request ⟨5, 38, 7, 0⟩ 5 1).entry.last_priority = 38 ∧
      (gk_process_request ⟨5, 38, 7, 0⟩ 5 1).dscp = min (38 + 3) 63) ∧
    ((gk_process_request ⟨5, 38, 0, 0⟩ 5 1).entry.last_priority =
        priority_from_delta_time 5 5 1 ∧
      (gk_process_request ⟨5, 38, 0, 0⟩ 5 1).entry.allowance = 7) := by
  constructor
  · exact (request_allowance_rule ⟨5, 38, 7, 0⟩ 5 1 (by decide)).1 (by decide)
  · exact (request_allowance_rule ⟨5, 38, 0, 0⟩ 5 1 (by decide)).2 (by decide)

/-- Claim C3: the DSCP written into the outer header of an encapsulated
request is `min (priority + 3) 63` where `priority` is the effective
priority after the allowance rule, so every emitted request carries a DSCP
between 3 and 63 and never 0, 1, or 2.  The hypothesis is the source
invariant on `last_priority`. -/
theorem request_dscp_range (r : RequestState) (now pp : Nat)
    (hlp : r.last_priority ≤ 63) :
    (gk_process_request r now pp).dscp =
      min ((if priority_from_delta_time now r.last_packet_seen_at pp <
              r.last_priority ∧ 0 < r.allowance then r.last_priority
            else priority_from_delta_time now r.last_packet_seen_at pp) + 3)
        63 ∧
    3 ≤ (gk_process_request r now pp).dscp ∧
    (gk_process_request r now pp).dscp ≤ 63 := by
  have hple := priority_from_delta_time_le now r.last_packet_seen_at pp
  by_cases hc : priority_from_delta_time now r.last_packet_seen_at pp <
      r.last_priority ∧ 0 < r.allowance
  · rw [gk_process_request_eq_pos r now pp hc]
    refine ⟨?_, ?_, ?_⟩
    · show dscp_remap r.last_priority = _
      rw [if_pos hc, dscp_remap_eq_min (by omega : r.last_priority ≤ 252)]
    · show 3 ≤ dscp_remap r.last_priority
      rw [dscp_remap_eq_min (by omega : r.last_priority ≤ 252)]
      omega
    · show dscp_remap r.last_priority ≤ 63
      rw [dscp_remap_eq_min (by omega : r.last_priority ≤ 252)]
      omega
  · rw [gk_process_request_eq_neg r now pp hc]
    have h252 : priority_from_delta_time now r.last_packet_seen_at pp ≤ 252 :=
      by omega
    refine ⟨?_, ?_, ?_⟩
    · show dscp_remap (priority_from_delta_time now r.last_packet_seen_at pp)
        = _
      rw [if_neg hc, dscp_remap_eq_min h252]
    · show 3 ≤
        dscp_remap (priority_from_delta_time now r.last_packet_seen_at pp)
      rw [dscp_remap_eq_min h252]
      omega
    · show dscp_remap (priority_from_delta_time now r.last_packet_seen_at pp)
        ≤ 63
      rw [dscp_remap_eq_min h252]
      omega

/-- Witness for claim C3 at a concrete input: with `last_priority = 60` and
no allowance, a same-instant packet gets the computed priority 0 and
DSCP `min (0 + 3) 63 = 3`, inside the range 3..63. -/
theorem request_dscp_range_witness :
    (gk_process_request ⟨5, 60, 0, 0⟩ 5 1).dscp =
      min ((if priority_from_delta_time 5 5 1 < 60 ∧ 0 < 0 then 60
            else priority_from_delta_time 5 5 1) + 3) 63 ∧
    3 ≤ (gk_process_request ⟨5, 60, 0, 0⟩ 5 1).dscp ∧
    (gk_process_request ⟨5, 60, 0, 0⟩ 5 1).dscp ≤ 63 :=
  request_dscp_range ⟨5, 60, 0, 0⟩ 5 1 (by decide)

/-- Claim C4: in GRANTED state (with an unexpired capability),
`budget_byte` stays within `[0, tx_rate_kb_cycle * 1024]`: the periodic
renewal and the policy install both set it to exactly
`tx_rate_kb_cycle * 1024`, an oversized packet is dropped with the budget
unchanged, and an accepted packet subtracts its length without going below
zero.  The hypotheses are the interval invariant between packets and a
non-negative configured rate. -/
theorem granted_budget_invariant (flow : Nat) (g : GrantedState)
    (now now_req len pp cps : Nat)
    (hrate : 0 ≤ g.tx_rate_kb_cycle)
    (hcap : now < g.cap_expire_at)
    (h0 : 0 ≤ g.budget_byte)
    (h1 : g.budget_byte ≤ g.tx_rate_kb_cycle * 1024) :
    (g.budget_renew_at ≤ now →
      (granted_budget_renew g now cps).budget_byte =
        g.tx_rate_kb_cycle * 1024) ∧
    ((len : Int) > (granted_budget_renew g now cps).budget_byte →
      (gk_process_granted flow g now now_req len pp cps).2 =
        GkOutcome.dropped ∧
      entry_budget_byte (gk_process_granted flow g now now_req len pp cps).1 =
        some (granted_budget_renew g now cps).budget_byte) ∧
    ((len : Int) ≤ (granted_budget_renew g now cps).budget_byte →
      entry_budget_byte (gk_process_granted flow g now now_req len pp cps).1 =
        some ((granted_budget_renew g now cps).budget_byte - (len : Int))) ∧
    (∀ b : Int,
      entry_budget_byte (gk_process_granted flow g now now_req len pp cps).1 =
        some b →
      0 ≤ b ∧ b ≤ g.tx_rate_kb_cycle * 1024) ∧
    (∀ (p : GguGrantedParams) (cpms : Nat) (fe : FlowEntry),
      entry_budget_byte
          (add_ggu_policy_update (GguPolicyState.grantedPolicy p)
            now cps cpms fe) =
        some (p.tx_rate_kb_sec * 1024)) := by
  have hexp : ¬ now ≥ g.cap_expire_at := by omega
  have hgr_bounds : 0 ≤ (granted_budget_renew g now cps).budget_byte ∧
      (granted_budget_renew g now cps).budget_byte ≤
        g.tx_rate_kb_cycle * 1024 := by
    unfold granted_budget_renew
    split
    · exact ⟨mul_nonneg hrate (by norm_num), le_refl _⟩
    · exact ⟨h0, h1⟩
  have hproc : gk_process_granted flow g now now_req len pp cps =
      granted_send flow (granted_budget_renew g now cps) now len := by
    unfold gk_process_granted
    rw [if_neg hexp]
  refine ⟨?_, ?_, ?_, ?_, ?_⟩
  · intro hdue
    unfold granted_budget_renew
    rw [if_pos hdue]
  · intro hgt
    rw [hproc]
    unfold granted_send
    rw [if_pos hgt]
    exact ⟨rfl, rfl⟩
  · intro hle
    rw [hproc]
    unfold granted_send
    rw [if_neg (by omega :
      ¬ (len : Int) > (granted_budget_renew g now cps).budget_byte)]
    split
    · rfl
    · rfl
  · intro b hb
    rw [hproc] at hb
    unfold granted_send at hb
    by_cases hgt : (len : Int) > (granted_budget_renew g now cps).budget_byte
    · rw [if_pos hgt] at hb
      simp only [entry_budget_byte, Option.some.injEq] at hb
      omega
    · rw [if_neg hgt] at hb
      have hlen : (0 : Int) ≤ (len : Int) := Int.natCast_nonneg len
      split at hb <;>
        · simp only [entry_budget_byte, Option.some.injEq] at hb
          omega
  · intro p cpms fe
    rfl

/-- Witness for claim C4 at concrete inputs: a due renewal resets the
budget to `10 * 1024`, and an accepted 200-byte packet on a 500-byte
budget leaves 300 bytes. -/
theorem granted_budget_invariant_witness :
    (granted_budget_renew ⟨100, 5, 10, 500, 0, 7⟩ 10 1).budget_byte =
      10 * 1024 ∧
    entry_budget_byte
        (gk_process_granted 0 ⟨100, 50, 10, 500, 0, 7⟩ 10 10 200 1 1).1 =
      some ((granted_budget_renew ⟨100, 50, 10, 500, 0, 7⟩ 10 1).budget_byte -
        ((200 : Nat) : Int)) := by
  have hA := granted_budget_invariant 0 ⟨100, 5, 10, 500, 0, 7⟩ 10 10 200 1 1
    (by decide) (by decide) (by decide) (by decide)
  have hB := granted_budget_invariant 0 ⟨100, 50, 10, 500, 0, 7⟩ 10 10 200 1 1
    (by decide) (by decide) (by decide) (by decide)
  exact ⟨hA.1 (by decide), hB.2.2.1 (by decide)⟩

/-- Claim C5: a GRANTED entry whose capability has expired
(`now >= cap_expire_at`), and a DECLINED entry whose punishment has expired
(`now >= expire_at`), are re-initialized to REQUEST (flow key preserved,
`last_packet_seen_at = now`, `last_priority = 38`, `allowance = 7`) and the
packet is processed on the REQUEST path; a DECLINED entry before expiry
drops the packet. -/
theorem expiry_reinitializes_to_request (flow : Nat) (g : GrantedState)
    (d : DeclinedState) (now now_req len pp cps : Nat) :
    (g.cap_expire_at ≤ now →
      gk_process_granted flow g now now_req len pp cps =
        gk_process_request_fe
          ⟨flow, FlowState.request ⟨now, 38, 7, 0⟩⟩ now_req pp) ∧
    (d.expire_at ≤ now →
      gk_process_declined flow d now now_req pp =
        gk_process_request_fe
          ⟨flow, FlowState.request ⟨now, 38, 7, 0⟩⟩ now_req pp) ∧
    (now < d.expire_at →
      gk_process_declined flow d now now_req pp =
        (⟨flow, FlowState.declined d⟩, GkOutcome.dropped)) ∧
    (∀ fe : FlowEntry, (reinitialize_flow_entry fe now).flow = fe.flow) := by
  refine ⟨?_, ?_, ?_, fun fe => rfl⟩
  · intro h
    unfold gk_process_granted
    rw [if_pos h]
    rfl
  · intro h
    unfold gk_process_declined
    rw [if_pos h]
    rfl
  · intro h
    unfold gk_process_declined
    rw [if_neg (by omega : ¬ now ≥ d.expire_at)]

/-- Witness for claim C5 at concrete inputs: capability expired at 5,
packet at 10 restarts on the REQUEST path; punishment expired at 5
likewise; punishment active until 20 drops the packet at 10. -/
theorem expiry_reinitializes_to_request_witness :
    gk_process_granted 0 ⟨5, 0, 0, 0, 0, 0⟩ 10 10 100 1 1 =
      gk_process_request_fe ⟨0, FlowState.request ⟨10, 38, 7, 0⟩⟩ 10 1 ∧
    gk_process_declined 0 ⟨5⟩ 10 10 1 =
      gk_process_request_fe ⟨0, FlowState.request ⟨10, 38, 7, 0⟩⟩ 10 1 ∧
    gk_process_declined 0 ⟨20⟩ 10 10 1 =
      (⟨0, FlowState.declined ⟨20⟩⟩, GkOutcome.dropped) := by
  have h1 := expiry_reinitializes_to_request 0 ⟨5, 0, 0, 0, 0, 0⟩ ⟨5⟩
    10 10 100 1 1
  have h2 := expiry_reinitializes_to_request 0 ⟨5, 0, 0, 0, 0, 0⟩ ⟨20⟩
    10 10 100 1 1
  exact ⟨h1.1 (by decide), h1.2.1 (by decide), h2.2.2.1 (by decide)⟩

/-- Counterexample to claim C6: on a freshly inserted entry
(`last_priority = 38`, `allowance = 7`) a same-instant packet computes
priority 0, which is strictly below 38 with a positive allowance, so the
allowance override fires: the packet is sent with priority 38, hence
DSCP 41 (not 3), and `last_priority` stays 38 (not 0); `allowance` becomes
6. -/
theorem first_packet_counterexample :
    gk_process_request_fe (initialize_flow_entry 0 0) 0 1 =
      (⟨0, FlowState.request ⟨0, 38, 6, 0⟩⟩, GkOutcome.sent 41) ∧
    (gk_process_request_fe (initialize_flow_entry 0 0) 0 1).2 ≠
      GkOutcome.sent 3 := by
  decide

/-- Claim C6 as amended: the first same-instant packet on a freshly
inserted entry takes the `delta < 1` branch (computed priority 0), consumes
one allowance unit (7 to 6), is sent with the held `last_priority = 38`,
so DSCP `38 + 3 = 41`, and `last_priority` remains 38. -/
theorem first_packet_behavior (flow t pp : Nat) :
    gk_process_request_fe (initialize_flow_entry flow t) t pp =
      (⟨flow, FlowState.request ⟨t, 38, 6, 0⟩⟩, GkOutcome.sent 41) := by
  have hprio : priority_from_delta_time t t pp = 0 := by
    simp [priority_from_delta_time, U64_MOD]
  show (let res := gk_process_request ⟨t, START_PRIORITY,
      START_ALLOWANCE - 1, 0⟩ t pp
    ((⟨flow, FlowState.request res.entry⟩ : FlowEntry),
      GkOutcome.sent res.dscp)) = _
  rw [gk_process_request_eq_pos ⟨t, START_PRIORITY, START_ALLOWANCE - 1, 0⟩
    t pp (by rw [hprio]; exact ⟨by norm_num [START_PRIORITY], by
      norm_num [START_ALLOWANCE]⟩)]
  rfl

/-- Counterexample to claim C7: a command already enqueued (mailbox holds
command 42) is not observed in the next loop iteration when that iteration
receives no packets: the `continue` on an empty RX burst skips the mailbox
drain, so nothing is dequeued and the command stays queued. -/
theorem policy_observed_counterexample :
    (gk_proc_iteration 0 [42]).2 = [] ∧
    ¬ 42 ∈ (gk_proc_iteration 0 [42]).2 ∧
    (gk_proc_iteration 0 [42]).1 = [42] := by
  decide

/-- Claim C7 as amended: a successfully enqueued policy command is
dequeued and applied in the next loop iteration provided that iteration
receives at least one packet and the command is among the first
`GK_CMD_BURST_SIZE` (32) commands in the mailbox. -/
theorem policy_observed_next_iteration (num_rx : Nat) (mailbox : List Nat)
    (c : Nat) (hrx : 0 < num_rx)
    (hc : c ∈ mailbox.take GK_CMD_BURST_SIZE) :
    c ∈ (gk_proc_iteration num_rx mailbox).2 ∧
    (gk_proc_iteration num_rx mailbox).1 =
      mailbox.drop GK_CMD_BURST_SIZE := by
  unfold gk_proc_iteration
  rw [if_neg (by omega : ¬ num_rx = 0)]
  exact ⟨hc, rfl⟩

/-- Witness for amended claim C7: with one received packet and command 7
at the head of the mailbox, the command is observed in that iteration. -/
theorem policy_observed_next_iteration_witness :
    7 ∈ (gk_proc_iteration 1 [7]).2 :=
  (policy_observed_next_iteration 1 [7] 7 (by decide) (by decide)).1

/-- Claim C8: applying the same DECLINED policy twice to the same flow is
idempotent up to the clock: the second application overwrites `expire_at`
with `now2 + expire_sec * cycles_per_sec` (64-bit arithmetic), never an
accumulation, and the doubly-updated entry equals the singly-updated one. -/
theorem declined_policy_idempotent (e now1 now2 cps cpms flow : Nat)
    (found : Option FlowEntry) :
    entry_expire_at
        (add_ggu_policy (GguPolicyState.declinedPolicy e) now2 cps cpms flow
          (some (add_ggu_policy (GguPolicyState.declinedPolicy e) now1 cps
            cpms flow found))) =
      some ((now2 + e * cps) % U64_MOD) ∧
    ∀ fe : FlowEntry,
      add_ggu_policy_update (GguPolicyState.declinedPolicy e) now2 cps cpms
          (add_ggu_policy_update (GguPolicyState.declinedPolicy e) now1 cps
            cpms fe) =
        add_ggu_policy_update (GguPolicyState.declinedPolicy e) now2 cps
          cpms fe := by
  exact ⟨rfl, fun fe => rfl⟩

/-- Claim C9: when the address-family service is not enabled on either
interface, `hold_arp`, `put_arp`, `hold_nd`, `put_nd` and `submit_nd`
return `-1` (negative) and perform no mailbox request (`lls_req` is never
reached), regardless of what `lls_req` would have returned. -/
theorem lls_disabled_negative (n : LlsNet) (req_ret : Int) :
    (arp_enabled n = false →
      hold_arp n req_ret = (-1, false) ∧ put_arp n req_ret = (-1, false)) ∧
    (nd_enabled n = false →
      hold_nd n req_ret = (-1, false) ∧ put_nd n req_ret = (-1, false) ∧
      submit_nd n req_ret = (-1, false)) ∧
    (-1 : Int) < 0 := by
  refine ⟨?_, ?_, by norm_num⟩
  · intro h
    constructor <;> simp [hold_arp, put_arp, h]
  · intro h
    refine ⟨?_, ?_, ?_⟩ <;> simp [hold_nd, put_nd, submit_nd, h]

/-- Witness for claim C9: with ARP and ND disabled on both interfaces, the
three producer-facing calls return `-1` and make no mailbox request. -/
theorem lls_disabled_negative_witness :
    hold_arp ⟨false, false, false, false⟩ 0 = (-1, false) ∧
    put_nd ⟨false, false, false, false⟩ 0 = (-1, false) ∧
    submit_nd ⟨false, false, false, false⟩ 0 = (-1, false) := by
  have h := lls_disabled_negative ⟨false, false, false, false⟩ 0
  exact ⟨(h.1 (by decide)).1, (h.2.1 (by decide)).2.1, (h.2.1 (by decide)).2.2⟩

/-- The search loop of `get_responsible_gk_mailbox` leaves `block_idx` at
`-1` when no instance's front RX queue matches. -/
theorem gk_block_search_miss {queues : List Nat} {qid : Nat}
    (h : ∀ q ∈ queues, q ≠ qid) : ∀ i : Nat, gk_block_search queues qid i = -1 := by
  induction queues with
  | nil => intro i; rfl
  | cons q rest ih =>
      intro i
      unfold gk_block_search
      rw [if_neg (h q (by simp))]
      exact ih (fun x hx => h x (by simp [hx])) (i + 1)

/-- Claim C10: when the RSS-reta-mapped queue id matches no GK instance's
front RX queue, `get_responsible_gk_mailbox` leaves `block_idx` at `-1`
after the search, so the unconditional `&instances[block_idx].mb` return
indexes the instances array at `-1` — outside every valid index — and no
error is signalled to the caller (the function has no failure return). -/
theorem responsible_mailbox_out_of_bounds (conf : GkConfModel)
    (rss_hash_val : Nat)
    (hmiss : ∀ q ∈ conf.rx_queue_front,
      q ≠ conf.reta_conf (rss_hash_val % 128 / 64) (rss_hash_val % 128 % 64)) :
    get_responsible_gk_mailbox conf rss_hash_val = -1 ∧
    get_responsible_gk_mailbox conf rss_hash_val < 0 ∧
    ∀ i : Nat, i < conf.rx_queue_front.length →
      get_responsible_gk_mailbox conf rss_hash_val ≠ (i : Int) := by
  have h : get_responsible_gk_mailbox conf rss_hash_val = -1 := by
    unfold get_responsible_gk_mailbox
    exact gk_block_search_miss hmiss 0
  refine ⟨h, by omega, ?_⟩
  intro i _
  rw [h]
  omega

/-- Witness for claim C10: one instance on queue 5, redirection table
sending the flow to queue 9: the search misses and the access index is
`-1`. -/
theorem responsible_mailbox_out_of_bounds_witness :
    get_responsible_gk_mailbox ⟨[5], fun _ _ => 9⟩ 0 = -1 :=
  (responsible_mailbox_out_of_bounds ⟨[5], fun _ _ => 9⟩ 0 (by decide)).1

/-- The source invariant backing the `last_priority ≤ 63` hypotheses:
a freshly initialized entry starts at `START_PRIORITY = 38`. -/
theorem initialize_last_priority_le (flow now : Nat) :
    ∀ r : RequestState,
      (initialize_flow_entry flow now).state = FlowState.request r →
      r.last_priority ≤ 63 := by
  intro r h
  simp only [initialize_flow_entry, FlowState.request.injEq] at h
  rw [← h]
  norm_num [START_PRIORITY]

/-- The source invariant backing the `last_priority ≤ 63` hypotheses:
the REQUEST path writes `last_priority` only as a computed priority, which
is at most 63, so the bound is preserved. -/
theorem gk_process_request_last_priority_le (r : RequestState) (now pp : Nat)
    (h : r.last_priority ≤ 63) :
    (gk_process_request r now pp).entry.last_priority ≤ 63 := by
  by_cases hc : priority_from_delta_time now r.last_packet_seen_at pp <
      r.last_priority ∧ 0 < r.allowance
  · rw [gk_process_request_eq_pos r now pp hc]
    exact h
  · rw [gk_process_request_eq_neg r now pp hc]
    exact priority_from_delta_time_le now r.last_packet_seen_at pp
